import Mathlib

/-!
Verification development for the in-person sales review system
(transcription segment pipeline in `api/transcription.py` and the
granular V2 score compiler in `api/scoring_v2.py`).

Times, percentages and ratios are modelled as exact rationals (`ℚ`),
scores and point budgets as integers (`ℤ`).  Python's `round(x, 2)`
(round-half-to-even at two decimals) is modelled exactly on rationals.
Python dicts carrying optional keys are modelled as structures with
`Option` fields or association lists, with the same `get`-defaults as
the source.
-/

namespace ReviewSys

/-- Round half to even on rationals (the tie-breaking rule of
Python's built-in `round`). -/
def roundHalfEven (q : ℚ) : ℤ :=
  let f : ℤ := ⌊q⌋
  let frac : ℚ := q - (f : ℚ)
  if frac < 1/2 then f
  else if 1/2 < frac then f + 1
  else if f % 2 = 0 then f else f + 1

/-- Python's `round(x, 2)` on exact rationals. -/
def pyRound2 (q : ℚ) : ℚ := (roundHalfEven (q * 100) : ℚ) / 100

/-! ## Scoring data model (`api/scoring_v2.py`) -/

/-- One sub-parameter (criterion) of a rubric category:
`{id, name, max_points}` as read by `compile_final_report`. -/
structure SubParam where
  id : String
  name : String
  max_points : ℤ
deriving Repr, DecidableEq

/-- One rubric category: `{id, name, max_points, sub_parameters}`. -/
structure Category where
  id : String
  name : String
  max_points : ℤ
  sub_parameters : List SubParam
deriving Repr, DecidableEq

/-- The rubric as read by `compile_final_report`:
`{title, total_points, categories}`. -/
structure Rubric where
  title : String
  total_points : ℤ
  categories : List Category
deriving Repr, DecidableEq

/-- One raw per-criterion judgment object from the oracle.  Every key
may be absent (the source reads each one with `dict.get` and a
default), hence the `Option` fields. -/
structure JudgeEntry where
  score : Option ℤ
  rationale : Option String
  evidence : List String
  validation_notes : Option String
deriving Repr, DecidableEq

/-- The default judgment used when a criterion id is absent from the
payload: `scoring_results.get(param_id, {})`. -/
def JudgeEntry.empty : JudgeEntry :=
  { score := none, rationale := none, evidence := [], validation_notes := none }

/-- The oracle's judgment payload: a dict from criterion id to raw
judgment, modelled as an association list (first binding wins). -/
def ScoringResults : Type := List (String × JudgeEntry)

/-- `scoring_results.get(param_id, {})`. -/
def getResult (scoring_results : ScoringResults) (param_id : String) : JudgeEntry :=
  (List.lookup param_id scoring_results).getD JudgeEntry.empty

/-- `scoring_results.get(param_id, {}).get('score', 0)` — the raw score
the compiler and the fatal gate both read, with its double default. -/
def rawScore (scoring_results : ScoringResults) (param_id : String) : ℤ :=
  ((getResult scoring_results param_id).score).getD 0

/-- The hardcoded fatal-parameter id set of `compile_final_report`. -/
def fatal_param_ids : List String :=
  ["brand_intro", "project_knowledge_accuracy", "professional", "tone_voice_modulation"]

/-- The fatal-parameter description table of `check_fatal_parameters`. -/
def fatal_param_mapping : List (String × String) :=
  [("brand_intro", "No introduction of brand"),
   ("project_knowledge_accuracy", "Wrong Information / False Commitment"),
   ("professional", "No Professional Behaviour"),
   ("tone_voice_modulation", "Avoid being Rude and Unprofessional")]

/-- `check_fatal_parameters(scoring_results, rubric)`: walks the fixed
fatal table; a raw score of `-1` (NA) is skipped, a raw score of `0`
marks the parameter failed.  Returns `(is_fatal, failed_fatal_params)`.
The `rubric` argument is accepted and unused, as in the source. -/
def check_fatal_parameters (scoring_results : ScoringResults) (_rubric : Rubric) :
    Bool × List String :=
  let failed_fatal_params :=
    fatal_param_mapping.foldl
      (fun acc p =>
        let param_score := rawScore scoring_results p.1
        if param_score = -1 then acc
        else if param_score = 0 then acc ++ [p.2 ++ " (" ++ p.1 ++ ")"]
        else acc)
      []
  (failed_fatal_params ≠ [], failed_fatal_params)

/-- One entry of `detailed_scores` / `criteria_scores` built by
`compile_final_report` for a single sub-parameter. -/
structure ParamDetail where
  id : String
  name : String
  max_points : ℤ
  points_awarded : ℤ
  score : ℤ
  percentage : ℚ
  rationale : String
  evidence : List String
  validation_notes : String
  response : String
  is_na : Bool
  is_fatal : Bool
deriving Repr, DecidableEq

/-- The per-parameter body of the `compile_final_report` loop: reads the
raw judgment with its defaults, resolves the NA sentinel (`-1` awards
`max_points`), clamps out-of-range scores, and tags fatal parameters. -/
def compileParam (scoring_results : ScoringResults) (sub_param : SubParam) : ParamDetail :=
  let result := getResult scoring_results sub_param.id
  let raw := result.score.getD 0
  let param_max := sub_param.max_points
  let resolved : ℤ × Bool :=
    if raw = -1 then (param_max, true)
    else if raw < 0 then (0, false)
    else if raw > param_max then (param_max, false)
    else (raw, false)
  { id := sub_param.id
    name := sub_param.name
    max_points := param_max
    points_awarded := resolved.1
    score := resolved.1
    percentage := if param_max > 0 then pyRound2 ((resolved.1 : ℚ) / (param_max : ℚ) * 100) else 0
    rationale := result.rationale.getD "No rationale provided"
    evidence := result.evidence
    validation_notes := result.validation_notes.getD ""
    response := "V2"
    is_na := resolved.2
    is_fatal := fatal_param_ids.contains sub_param.id }

/-- `cat_awarded` of one category: each non-fatal sub-parameter
contributes its resolved score, fatal sub-parameters contribute 0. -/
def category_awarded (scoring_results : ScoringResults) (category : Category) : ℤ :=
  (category.sub_parameters.map
    (fun sp =>
      let d := compileParam scoring_results sp
      if d.is_fatal then 0 else d.score)).sum

/-- `detailed_scores`: every sub-parameter of every category, in rubric
declaration order. -/
def detailed_scores (scoring_results : ScoringResults) (rubric : Rubric) : List ParamDetail :=
  (rubric.categories.map
    (fun c => c.sub_parameters.map (compileParam scoring_results))).flatten

/-- The report object returned by `compile_final_report` (its metadata
fields are flattened into the record). -/
structure Report where
  rubric_title : String
  total_points : ℤ
  total_score : ℤ
  percentage : ℚ
  criteria_scores : List ParamDetail
  fatal_parameter_failed : Bool
  failed_fatal_parameters : List String
  fatal_error_reason : Option String
  transcript_length : ℕ
  num_segments : ℕ
deriving Repr, DecidableEq

/-- `compile_final_report(scoring_results, rubric, transcript_length,
num_segments)`: runs the fatal gate, compiles every criterion entry,
sums non-fatal resolved scores into `total_awarded`, forces the total
to 0 when the gate fired, and derives the percentage from the rubric's
`total_points`. -/
def compile_final_report (scoring_results : ScoringResults) (rubric : Rubric)
    (transcript_length num_segments : ℕ) : Report :=
  let fatal := check_fatal_parameters scoring_results rubric
  let total_possible := rubric.total_points
  let total_awarded0 := (rubric.categories.map (category_awarded scoring_results)).sum
  let total_awarded := if fatal.1 then 0 else total_awarded0
  { rubric_title := rubric.title
    total_points := total_possible
    total_score := total_awarded
    percentage :=
      if total_possible > 0 then pyRound2 ((total_awarded : ℚ) / (total_possible : ℚ) * 100)
      else 0
    criteria_scores := detailed_scores scoring_results rubric
    fatal_parameter_failed := fatal.1
    failed_fatal_parameters := fatal.2
    fatal_error_reason :=
      if fatal.1 then
        some ("Score set to 0 due to FATAL parameter failure(s): " ++
          String.intercalate ", " fatal.2)
      else none
    transcript_length := transcript_length
    num_segments := num_segments }

/-! ## Transcription data model (`api/transcription.py`) -/

/-- Characters removed by `_clean_unicode`: the replacement character,
the zero-width / directional ranges of its regex, and BOM.  (The
`encode/decode` round-trip and the `ord < 0x110000` filter of the
source are identities on Lean `Char`, which already excludes surrogates
and out-of-range codepoints.) -/
def isRemovedChar (c : Char) : Bool :=
  decide (c.toNat = 0xfffd ∨
    (0x200b ≤ c.toNat ∧ c.toNat ≤ 0x200f) ∨
    (0x202a ≤ c.toNat ∧ c.toNat ≤ 0x202e) ∨
    (0x2060 ≤ c.toNat ∧ c.toNat ≤ 0x206f) ∨
    c.toNat = 0xfeff)

/-- `_clean_unicode(text)`: common unicode sanitization without
stripping spaces. -/
def clean_unicode (text : String) : String :=
  if text = "" then ""
  else String.mk (text.data.filter (fun c => !(isRemovedChar c)))

/-- Python's default whitespace set for `str.strip()`
(every codepoint for which `str.isspace()` holds). -/
def isPySpace (c : Char) : Bool :=
  decide (c.toNat ∈
    [0x09, 0x0a, 0x0b, 0x0c, 0x0d, 0x1c, 0x1d, 0x1e, 0x1f, 0x20,
     0x85, 0xa0, 0x1680,
     0x2000, 0x2001, 0x2002, 0x2003, 0x2004, 0x2005, 0x2006, 0x2007,
     0x2008, 0x2009, 0x200a, 0x2028, 0x2029, 0x202f, 0x205f, 0x3000])

/-- Python's `str.strip()` with no argument. -/
def pyStrip (s : String) : String :=
  String.mk (((s.data.dropWhile isPySpace).reverse.dropWhile isPySpace).reverse)

/-- `sanitize_text(text)`: trim-mode sanitizer for whole transcripts. -/
def sanitize_text (text : String) : String :=
  if text = "" then "" else pyStrip (clean_unicode text)

/-- `sanitize_token_text(text)`: preserve-mode sanitizer for tokens
(boundary whitespace kept). -/
def sanitize_token_text (text : String) : String :=
  if text = "" then "" else clean_unicode text

/-- One Soniox token as read by `transcribe_audio`: every key may be
absent (`tok.get`), hence the `Option` fields.  Times are rationals. -/
structure Token where
  text : String
  speaker : Option String
  start_time : Option ℚ
  start_ms : Option ℚ
  end_time : Option ℚ
  end_ms : Option ℚ
deriving Repr, DecidableEq

/-- A provisional speaker segment built by the token-aggregation loop
(keys `speaker`, `start_time`, `end_time`, `text`). -/
structure RawSeg where
  speaker : String
  start_time : ℚ
  end_time : ℚ
  text : String
deriving Repr, DecidableEq

/-- Timing resolution for a token's start: prefer `start_time`
(seconds), fall back to `start_ms / 1000`, default 0. -/
def resolveStart (tok : Token) : ℚ :=
  match tok.start_time with
  | some s => s
  | none =>
    match tok.start_ms with
    | some ms => ms / 1000
    | none => 0

/-- Timing resolution for a token's end: prefer `end_time` (seconds),
fall back to `end_ms / 1000`, default to the resolved start. -/
def resolveEnd (tok : Token) (start : ℚ) : ℚ :=
  match tok.end_time with
  | some e => e
  | none =>
    match tok.end_ms with
    | some ms => ms / 1000
    | none => start

/-- The `> 1000 ⇒ assume milliseconds` unit-correction heuristic
applied when a value is stored into a segment. -/
def msFix (x : ℚ) : ℚ := if x > 1000 then x / 1000 else x

/-- State of the token-aggregation loop: segments flushed so far and
the open segment (`current_seg`), if any. -/
structure AggState where
  segments : List RawSeg
  current_seg : Option RawSeg
deriving Repr, DecidableEq

/-- One iteration of the token-aggregation loop of `transcribe_audio`:
skip empty-sanitized tokens; start a new segment when none is open, the
speaker changes, or the gap exceeds `merge_threshold`; otherwise extend
the open segment's end and append the token text with no separator. -/
def aggStep (merge_threshold : ℚ) (st : AggState) (tok : Token) : AggState :=
  let text := sanitize_token_text tok.text
  if text = "" then st
  else
    let speaker := tok.speaker.getD "UNKNOWN"
    let start := resolveStart tok
    let e := resolveEnd tok start
    let fresh : RawSeg :=
      { speaker := speaker, start_time := msFix start, end_time := msFix e, text := text }
    match st.current_seg with
    | none => { st with current_seg := some fresh }
    | some cur =>
      if cur.speaker ≠ speaker ∨ start - cur.end_time > merge_threshold then
        { segments := st.segments ++ [cur], current_seg := some fresh }
      else
        let extended : RawSeg := { cur with end_time := msFix e, text := cur.text ++ text }
        { st with current_seg := some extended }

/-- The token-aggregation loop: fold `aggStep` over the token stream,
then flush the open segment. -/
def buildSegments (merge_threshold : ℚ) (tokens : List Token) : List RawSeg :=
  let st := tokens.foldl (aggStep merge_threshold) ⟨[], none⟩
  match st.current_seg with
  | some cur => st.segments ++ [cur]
  | none => st.segments

/-- A structured speaker segment of the final result (keys `speaker`,
`start_time`, `end_time`, `duration`, `text`). -/
structure Segment where
  speaker : String
  start_time : ℚ
  end_time : ℚ
  duration : ℚ
  text : String
deriving Repr, DecidableEq

/-- The structured-conversion loop of `transcribe_audio`: re-reads each
provisional segment (speaker fallback for falsy ids, empty-text skip,
`end < start` repaired to `start + 1`), rounds the stored times to two
decimals, derives `duration`, and tracks the running maximum end time.
Returns the structured segments and the final `total_duration`. -/
def structuredLoop (idx : ℕ) (total_duration : ℚ) :
    List RawSeg → List Segment × ℚ
  | [] => ([], total_duration)
  | rs :: rest =>
    let segment_text := sanitize_text rs.text
    if segment_text = "" then structuredLoop (idx + 1) total_duration rest
    else
      let speaker_id := if rs.speaker = "" then "SPEAKER_UNKNOWN_" ++ toString idx else rs.speaker
      let start_time := rs.start_time
      let end_time := if rs.end_time < rs.start_time then rs.start_time + 1 else rs.end_time
      let total' := if end_time > total_duration then end_time else total_duration
      let res := structuredLoop (idx + 1) total' rest
      ({ speaker := speaker_id
         start_time := pyRound2 start_time
         end_time := pyRound2 end_time
         duration := pyRound2 (end_time - start_time)
         text := segment_text } :: res.1, res.2)

/-- The loop of `merge_consecutive_speaker_segments`: `current` is the
segment being accumulated; a same-speaker successor is always merged
into it (its `end_time` adopted, the stripped texts joined with one
space and sanitized; `start_time` and `duration` untouched), a
different-speaker successor flushes it and becomes the new current. -/
def mergeLoop (current : Segment) : List Segment → List Segment
  | [] => [current]
  | next_seg :: rest =>
    if current.speaker = next_seg.speaker then
      mergeLoop
        { current with
          end_time := next_seg.end_time
          text := sanitize_text (pyStrip current.text ++ " " ++ pyStrip next_seg.text) }
        rest
    else
      current :: mergeLoop next_seg rest

/-- `merge_consecutive_speaker_segments(segments)`: merge consecutive
segments from the same speaker, regardless of time gap. -/
def merge_consecutive_speaker_segments : List Segment → List Segment
  | [] => []
  | s :: rest => mergeLoop s rest

/-- The first pass of `normalize_speaker_labels`: build the
raw-speaker → label dict in order of first appearance, labels
`"Speaker 1"`, `"Speaker 2"`, … . -/
def buildSpeakerMap (segments : List Segment) : List (String × String) :=
  (segments.foldl
    (fun (acc : List (String × String) × ℕ) seg =>
      if (List.lookup seg.speaker acc.1).isSome then acc
      else (acc.1 ++ [(seg.speaker, "Speaker " ++ toString acc.2)], acc.2 + 1))
    ([], 1)).1

/-- `normalize_speaker_labels(segments)`: rename each segment's speaker
through the first-appearance map, leaving every other field unchanged. -/
def normalize_speaker_labels (segments : List Segment) : List Segment :=
  match segments with
  | [] => []
  | _ =>
    let speaker_map := buildSpeakerMap segments
    segments.map
      (fun seg => { seg with speaker := (List.lookup seg.speaker speaker_map).getD seg.speaker })

/-- The Soniox transcript response body as read after polling:
optional top-level `text` and optional token array. -/
structure SonioxResponse where
  text : Option String
  tokens : Option (List Token)
deriving Repr, DecidableEq

/-- The result object returned by `transcribe_audio` (metadata fields
tied to the filesystem are out of scope). -/
structure TranscriptionResult where
  transcription : String
  speaker_segments : List Segment
  duration : ℚ
  speaker_count : ℕ
deriving Repr, DecidableEq

/-- Step 5 of `transcribe_audio`: the full transcript text — prefer the
top-level `text` when truthy, else concatenate sanitized token texts of
truthy-text tokens; sanitize (trim-mode) the result. -/
def full_transcript (resp : SonioxResponse) (tokens : List Token) : String :=
  let t := (resp.text).getD ""
  sanitize_text
    (if t = "" then
      String.join ((tokens.filter (fun tok => tok.text ≠ "")).map
        (fun tok => sanitize_token_text tok.text))
    else t)

/-- Steps 5–10 of `transcribe_audio` on a non-empty token list:
aggregate tokens into provisional segments, structure them (rounding,
duration, repairs), merge consecutive same-speaker segments, optionally
normalize speaker labels, and compute duration and speaker count. -/
def transcribe_pipeline (merge_threshold : ℚ) (normalize_speakers : Bool)
    (resp : SonioxResponse) (tokens : List Token) : TranscriptionResult :=
  let raw := buildSegments merge_threshold tokens
  let structured := structuredLoop 0 0 raw
  let merged := merge_consecutive_speaker_segments structured.1
  let final := if normalize_speakers then normalize_speaker_labels merged else merged
  { transcription := full_transcript resp tokens
    speaker_segments := final
    duration := pyRound2 structured.2
    speaker_count := ((final.map (fun s => s.speaker)).dedup).length }

/-- The token-validation step of `transcribe_audio` after fetching the
transcript: `tokens = transcript_json.get("tokens") or []`; an empty
list is a hard `ValueError`, otherwise the pipeline runs. -/
def transcribe_from_response (merge_threshold : ℚ) (normalize_speakers : Bool)
    (resp : SonioxResponse) : Except String TranscriptionResult :=
  let tokens := (resp.tokens).getD []
  if tokens = [] then
    Except.error "Soniox transcript response did not contain any tokens"
  else
    Except.ok (transcribe_pipeline merge_threshold normalize_speakers resp tokens)

/-- The transcript payload handed to `score_transcript_main`:
`transcription` and `speaker_segments`, both optional keys. -/
structure TranscriptData where
  transcription : Option String
  speaker_segments : Option (List Segment)
deriving Repr, DecidableEq

/-- `score_transcript_main(transcript_data)`: rejects an empty or
missing transcript with a hard `ValueError`, otherwise obtains the
oracle's judgment payload for the transcript and speaker segments and
compiles the final report.  The oracle call (`score_transcript_v2`,
an external LLM) is abstracted as the function argument `oracle`. -/
def score_transcript_main (rubric : Rubric)
    (oracle : String → List Segment → ScoringResults)
    (transcript_data : TranscriptData) : Except String Report :=
  let transcript := (transcript_data.transcription).getD ""
  if transcript = "" ∨ pyStrip transcript = "" then
    Except.error "Transcript is empty or missing"
  else
    let speaker_segments := (transcript_data.speaker_segments).getD []
    let scoring_results := oracle transcript speaker_segments
    Except.ok
      (compile_final_report scoring_results rubric transcript.length speaker_segments.length)

/-! ## Spec-side definitions (written from the specification's words,
for refinement statements) and concrete fixtures -/

/-- Spec-side: the distinct elements of a list in order of first
appearance (the spec's "distinct raw speaker identifiers in order of
first appearance"). -/
def distinctFirst (l : List String) : List String :=
  l.foldl (fun acc x => if x ∈ acc then acc else acc ++ [x]) []

/-- Spec-side: pair the k-th element of a list (0-based) with the
sequential label `"Speaker (n+k)"`. -/
def enumLabel : List String → ℕ → List (String × String)
  | [], _ => []
  | x :: xs, n => (x, "Speaker " ++ toString n) :: enumLabel xs (n + 1)

/-- A judgment entry carrying only a score (fixture helper). -/
def jeScore (n : ℤ) : JudgeEntry :=
  { score := some n, rationale := none, evidence := [], validation_notes := none }

/-- Fixture sub-parameter: the fatal criterion `brand_intro`, max 10. -/
def spBrandIntro : SubParam := { id := "brand_intro", name := "Brand Intro", max_points := 10 }

/-- Fixture sub-parameter: a non-fatal criterion `other`, max 10. -/
def spOther : SubParam := { id := "other", name := "Other", max_points := 10 }

/-- Fixture category containing `brand_intro` and `other`. -/
def catW : Category :=
  { id := "cat", name := "Category", max_points := 20, sub_parameters := [spBrandIntro, spOther] }

/-- Fixture rubric: one category, total budget 20. -/
def rubricW : Rubric := { title := "Fixture", total_points := 20, categories := [catW] }

/-- Fixture payload for the C1 counterexample: `brand_intro` raw score
`-2` (which resolves to 0 without being NA, yet does not trip the
raw-score-0 gate), the other fatal ids nonzero, `other` at 5. -/
def resultsNegFatal : ScoringResults :=
  [("brand_intro", jeScore (-2)), ("project_knowledge_accuracy", jeScore 5),
   ("professional", jeScore 5), ("tone_voice_modulation", jeScore 5), ("other", jeScore 5)]

/-- Fixture payload with every fatal id nonzero and `other` at 5: the
gate does not trigger. -/
def resultsClean : ScoringResults :=
  [("brand_intro", jeScore 7), ("project_knowledge_accuracy", jeScore 5),
   ("professional", jeScore 5), ("tone_voice_modulation", jeScore 5), ("other", jeScore 5)]

/-- Fixture payload with `brand_intro` raw score exactly 0: the gate
triggers. -/
def resultsZeroFatal : ScoringResults :=
  [("brand_intro", jeScore 0), ("project_knowledge_accuracy", jeScore 5),
   ("professional", jeScore 5), ("tone_voice_modulation", jeScore 5), ("other", jeScore 5)]

/-- Fixture payload mentioning only `other`: every fatal id is entirely
absent from the payload. -/
def resultsMissingFatal : ScoringResults := [("other", jeScore 5)]

/-- Scenario tokens of the spec's token-aggregation example:
`[(A,"Hi ",0,1), (A,"there",1.2,1.5), (B,"Hello",2,2.5)]`. -/
def scenarioTokens : List Token :=
  [{ text := "Hi ", speaker := some "A", start_time := some 0, start_ms := none,
     end_time := some 1, end_ms := none },
   { text := "there", speaker := some "A", start_time := some 1.2, start_ms := none,
     end_time := some 1.5, end_ms := none },
   { text := "Hello", speaker := some "B", start_time := some 2, start_ms := none,
     end_time := some 2.5, end_ms := none }]

/-- Tokens producing two same-speaker provisional segments separated by
a gap above the threshold: `(A,"Hi",0,1)` and `(A,"there",2,3)`. -/
def gapTokens : List Token :=
  [{ text := "Hi", speaker := some "A", start_time := some 0, start_ms := none,
     end_time := some 1, end_ms := none },
   { text := "there", speaker := some "A", start_time := some 2, start_ms := none,
     end_time := some 3, end_ms := none }]

/-- A Soniox response wrapping `gapTokens`. -/
def gapResp : SonioxResponse := { text := some "Hi there", tokens := some gapTokens }

/-- Fixture segment with a given speaker (timing and text fixed). -/
def segWith (sp : String) : Segment :=
  { speaker := sp, start_time := 0, end_time := 1, duration := 1, text := "t" }

/-- The fresh open segment the aggregation loop creates from a token
(spec's "start a new segment"). -/
def freshSeg (tok : Token) : RawSeg :=
  { speaker := tok.speaker.getD "UNKNOWN"
    start_time := msFix (resolveStart tok)
    end_time := msFix (resolveEnd tok (resolveStart tok))
    text := sanitize_token_text tok.text }

/-- The extension of an open segment by a token (spec's "extend the
open segment's end_time and append the token's sanitized text with no
separator"). -/
def extendSeg (cur : RawSeg) (tok : Token) : RawSeg :=
  { cur with
    end_time := msFix (resolveEnd tok (resolveStart tok))
    text := cur.text ++ sanitize_token_text tok.text }

/-- The single final segment `transcribe_pipeline` produces on
`gapTokens`: merged end time 3 but stale duration 1. -/
def mergedGapSeg : Segment :=
  { speaker := "Speaker 1", start_time := 0, end_time := 3, duration := 1, text := "Hi there" }

/-! ## Theorems -/

/-- The merger's inner loop returns a nonempty list whose head carries
the speaker of the accumulated segment. -/
lemma mergeLoop_head_speaker (l : List Segment) (c : Segment) :
    ∃ d t, mergeLoop c l = d :: t ∧ d.speaker = c.speaker := by
  induction l generalizing c with
  | nil => exact ⟨c, [], rfl, rfl⟩
  | cons n rest ih =>
    by_cases h : c.speaker = n.speaker
    · simp only [mergeLoop, if_pos h]
      exact ih _
    · simp only [mergeLoop, if_neg h]
      exact ⟨c, mergeLoop n rest, rfl, rfl⟩

/-- The merger's inner loop produces a list in which no two adjacent
segments share a speaker. -/
lemma mergeLoop_chain (l : List Segment) (c : Segment) :
    List.Chain' (fun a b => a.speaker ≠ b.speaker) (mergeLoop c l) := by
  induction l generalizing c with
  | nil => simp [mergeLoop]
  | cons n rest ih =>
    by_cases h : c.speaker = n.speaker
    · simp only [mergeLoop, if_pos h]
      exact ih _
    · simp only [mergeLoop, if_neg h]
      rw [List.chain'_cons']
      refine ⟨?_, ih n⟩
      intro y hy
      obtain ⟨d, t, heq, hsp⟩ := mergeLoop_head_speaker rest n
      rw [heq] at hy
      simp only [List.head?_cons, Option.mem_def, Option.some.injEq] at hy
      rw [hy] at hsp
      rw [hsp]
      exact h

/-- On a list in which no two adjacent segments share a speaker, the
merger's inner loop changes nothing. -/
lemma mergeLoop_of_chain (l : List Segment) (c : Segment)
    (h : List.Chain' (fun a b => a.speaker ≠ b.speaker) (c :: l)) :
    mergeLoop c l = c :: l := by
  induction l generalizing c with
  | nil => rfl
  | cons n rest ih =>
    rw [List.chain'_cons] at h
    simp only [mergeLoop, if_neg h.1]
    rw [ih n h.2]

/-- Claim C4: the segment merger is idempotent — for every segment list
`S`, `merge_consecutive_speaker_segments
(merge_consecutive_speaker_segments S) =
merge_consecutive_speaker_segments S`. -/
theorem claim_C4 (S : List Segment) :
    merge_consecutive_speaker_segments (merge_consecutive_speaker_segments S) =
      merge_consecutive_speaker_segments S := by
  cases S with
  | nil => rfl
  | cons s rest =>
    have hchain := mergeLoop_chain rest s
    obtain ⟨d, t, heq, -⟩ := mergeLoop_head_speaker rest s
    show merge_consecutive_speaker_segments (mergeLoop s rest) = mergeLoop s rest
    rw [heq] at hchain ⊢
    show mergeLoop d t = d :: t
    exact mergeLoop_of_chain t d hchain

/-- Lookup in an `enumLabel` table succeeds exactly for members of the
underlying list. -/
lemma lookup_enumLabel_isSome (ds : List String) (n : ℕ) (x : String) :
    (List.lookup x (enumLabel ds n)).isSome = true ↔ x ∈ ds := by
  induction ds generalizing n with
  | nil => simp [enumLabel]
  | cons d rest ih =>
    simp only [enumLabel, List.lookup, List.mem_cons]
    by_cases h : x = d
    · simp [h]
    · have hb : (x == d) = false := beq_eq_false_iff_ne.2 h
      simp [hb, h, ih]

/-- Appending one fresh element to an `enumLabel` table. -/
lemma enumLabel_append (ds : List String) (x : String) (n : ℕ) :
    enumLabel (ds ++ [x]) n = enumLabel ds n ++ [(x, "Speaker " ++ toString (n + ds.length))] := by
  induction ds generalizing n with
  | nil => simp [enumLabel]
  | cons d rest ih =>
    simp only [List.cons_append, enumLabel, List.append_eq, ih, List.length_cons]
    have harith : n + 1 + rest.length = n + (rest.length + 1) := by omega
    rw [harith]

/-- Invariant of `buildSpeakerMap`'s fold: starting from the table of a
distinct-speaker list `ds` and counter `ds.length + 1`, the fold ends
in the table of `ds` extended by the unseen speakers in first
appearance order (and the matching counter). -/
lemma buildSpeakerMap_go (segs : List Segment) (ds : List String) :
    segs.foldl
      (fun (acc : List (String × String) × ℕ) seg =>
        if (List.lookup seg.speaker acc.1).isSome then acc
        else (acc.1 ++ [(seg.speaker, "Speaker " ++ toString acc.2)], acc.2 + 1))
      (enumLabel ds 1, ds.length + 1)
    = (enumLabel
        (segs.foldl (fun acc seg => if seg.speaker ∈ acc then acc else acc ++ [seg.speaker]) ds) 1,
       (segs.foldl (fun acc seg => if seg.speaker ∈ acc then acc else acc ++ [seg.speaker]) ds).length
         + 1) := by
  induction segs generalizing ds with
  | nil => rfl
  | cons s rest ih =>
    simp only [List.foldl_cons]
    by_cases hmem : s.speaker ∈ ds
    · have hls : (List.lookup s.speaker (enumLabel ds 1)).isSome = true :=
        (lookup_enumLabel_isSome ds 1 s.speaker).2 hmem
      rw [if_pos hls, if_pos hmem]
      exact ih ds
    · have hls : ¬ ((List.lookup s.speaker (enumLabel ds 1)).isSome = true) :=
        fun hc => hmem ((lookup_enumLabel_isSome ds 1 s.speaker).1 hc)
      rw [if_neg hls, if_neg hmem]
      have hstep : (enumLabel ds 1 ++ [(s.speaker, "Speaker " ++ toString (ds.length + 1))],
          ds.length + 1 + 1)
          = (enumLabel (ds ++ [s.speaker]) 1, (ds ++ [s.speaker]).length + 1) := by
        rw [enumLabel_append, List.length_append]
        have harith : 1 + ds.length = ds.length + 1 := by omega
        rw [harith]
        simp
      rw [hstep]
      exact ih (ds ++ [s.speaker])

/-- `buildSpeakerMap` is exactly the sequential labelling of the
distinct speakers in first-appearance order. -/
lemma buildSpeakerMap_eq (segs : List Segment) :
    buildSpeakerMap segs = enumLabel (distinctFirst (segs.map (fun s => s.speaker))) 1 := by
  have h := buildSpeakerMap_go segs []
  unfold buildSpeakerMap distinctFirst
  rw [List.foldl_map]
  have hinit : (enumLabel ([] : List String) 1, ([] : List String).length + 1)
      = (([] : List (String × String)), 1) := rfl
  rw [hinit] at h
  rw [h]

/-- Claim C6: `normalize_speaker_labels` only renames the speaker field
through a fixed per-call map (preserving count, order and every other
field); the map sends the k-th distinct raw identifier, in order of
first appearance, to `"Speaker (k+1)"`; raw speakers `S2,S2,S5,S2`
receive `Speaker 1, Speaker 1, Speaker 2, Speaker 1`. -/
theorem claim_C6 :
    (∀ segs : List Segment,
        normalize_speaker_labels segs =
          segs.map (fun seg =>
            { seg with
              speaker := (List.lookup seg.speaker (buildSpeakerMap segs)).getD seg.speaker }))
    ∧ (∀ segs : List Segment,
        buildSpeakerMap segs = enumLabel (distinctFirst (segs.map (fun s => s.speaker))) 1)
    ∧ (normalize_speaker_labels [segWith "S2", segWith "S2", segWith "S5", segWith "S2"]).map
        (fun s => s.speaker) = ["Speaker 1", "Speaker 1", "Speaker 2", "Speaker 1"] := by
  refine ⟨?_, buildSpeakerMap_eq, ?_⟩
  · intro segs
    cases segs <;> rfl
  · decide

/-- Claim C5: the token aggregator skips tokens with empty sanitized
text; it starts a new segment exactly when no segment is open, the
token's speaker differs from the open segment's speaker, or
`token.start − open.end > merge_threshold`; otherwise it extends the
open segment's end time and appends the sanitized text with no
separator; and on the spec's scenario tokens with threshold 0.5 it
yields `[{A,0,1.5,"Hi there"}, {B,2,2.5,"Hello"}]`. -/
theorem claim_C5 :
    (∀ (merge_threshold : ℚ) (st : AggState) (tok : Token),
        sanitize_token_text tok.text = "" → aggStep merge_threshold st tok = st)
    ∧ (∀ (merge_threshold : ℚ) (st : AggState) (tok : Token),
        sanitize_token_text tok.text ≠ "" →
        (st.current_seg = none ∨
          ∃ cur, st.current_seg = some cur ∧
            (cur.speaker ≠ tok.speaker.getD "UNKNOWN" ∨
              resolveStart tok - cur.end_time > merge_threshold)) →
        aggStep merge_threshold st tok =
          { segments := st.segments ++ st.current_seg.toList,
            current_seg := some (freshSeg tok) })
    ∧ (∀ (merge_threshold : ℚ) (st : AggState) (tok : Token) (cur : RawSeg),
        sanitize_token_text tok.text ≠ "" →
        st.current_seg = some cur →
        cur.speaker = tok.speaker.getD "UNKNOWN" →
        resolveStart tok - cur.end_time ≤ merge_threshold →
        aggStep merge_threshold st tok =
          { segments := st.segments, current_seg := some (extendSeg cur tok) })
    ∧ buildSegments (1/2) scenarioTokens =
        [{ speaker := "A", start_time := 0, end_time := 1.5, text := "Hi there" },
         { speaker := "B", start_time := 2, end_time := 2.5, text := "Hello" }] := by
  refine ⟨?_, ?_, ?_, ?_⟩
  · intro mt st tok h
    simp [aggStep, h]
  · intro mt st tok hne hcond
    rcases hcond with hnone | ⟨cur, hcur, hbreak⟩
    · simp [aggStep, hne, hnone, freshSeg]
    · simp only [aggStep, if_neg hne, hcur]
      rw [if_pos hbreak]
      simp [freshSeg]
  · intro mt st tok cur hne hcur hsp hgap
    simp only [aggStep, if_neg hne, hcur]
    rw [if_neg (by push_neg; exact ⟨hsp, hgap⟩)]
    simp [extendSeg]
  · simp +decide only [buildSegments, scenarioTokens, aggStep, resolveStart, resolveEnd, msFix,
      List.foldl,
      show sanitize_token_text "Hi " = "Hi " from rfl,
      show sanitize_token_text "there" = "there" from rfl,
      show sanitize_token_text "Hello" = "Hello" from rfl,
      show ("Hi " ++ "there" : String) = "Hi there" from rfl,
      show ((1.2 : ℚ) - 1 > 1/2) = False from by norm_num,
      show ((0 : ℚ) > 1000) = False from by norm_num,
      show ((1 : ℚ) > 1000) = False from by norm_num,
      show ((1.5 : ℚ) > 1000) = False from by norm_num,
      show ((2 : ℚ) > 1000) = False from by norm_num,
      show ((2.5 : ℚ) > 1000) = False from by norm_num]
    norm_num
    simp +decide [show ("Hi " ++ "there" : String) = "Hi there" from rfl]

/-- Claim C7 fails on the code: on `gapTokens` the pipeline merges two
same-speaker segments, adopting the later end time (3) while keeping
the first segment's stale `duration` (1), so the final segment violates
`duration = end_time − start_time` (1 ≠ 3 − 0 and 1 ≠ round2(3 − 0)). -/
theorem claim_C7_bug :
    (transcribe_pipeline (1/2) true gapResp gapTokens).speaker_segments = [mergedGapSeg]
    ∧ mergedGapSeg.duration ≠ mergedGapSeg.end_time - mergedGapSeg.start_time
    ∧ mergedGapSeg.duration ≠ pyRound2 (mergedGapSeg.end_time - mergedGapSeg.start_time) := by
  refine ⟨?_, ?_, ?_⟩
  · simp +decide [transcribe_pipeline, gapResp, gapTokens, buildSegments, aggStep,
      resolveStart, resolveEnd, msFix, List.foldl, structuredLoop,
      merge_consecutive_speaker_segments, mergeLoop, normalize_speaker_labels, buildSpeakerMap,
      mergedGapSeg,
      show sanitize_token_text "Hi" = "Hi" from rfl,
      show sanitize_token_text "there" = "there" from rfl,
      show sanitize_text "Hi" = "Hi" from rfl,
      show sanitize_text "there" = "there" from rfl,
      show sanitize_text (pyStrip "Hi" ++ " " ++ pyStrip "there") = "Hi there" from rfl,
      show ("Speaker " ++ toString 1 : String) = "Speaker 1" from rfl,
      show ((0 : ℚ) > 1000) = False from by norm_num,
      show ((1 : ℚ) > 1000) = False from by norm_num,
      show ((2 : ℚ) > 1000) = False from by norm_num,
      show ((3 : ℚ) > 1000) = False from by norm_num,
      show ((2 : ℚ) - 1 > 1/2) = True from by norm_num,
      show ((1 : ℚ) < 0) = False from by norm_num,
      show ((3 : ℚ) < 2) = False from by norm_num,
      show ((1 : ℚ) > 0) = True from by norm_num,
      show ((3 : ℚ) > 1) = True from by norm_num,
      show pyRound2 (0 : ℚ) = 0 from by norm_num [pyRound2, roundHalfEven],
      show pyRound2 (1 : ℚ) = 1 from by norm_num [pyRound2, roundHalfEven],
      show pyRound2 (2 : ℚ) = 2 from by norm_num [pyRound2, roundHalfEven],
      show pyRound2 (3 : ℚ) = 3 from by norm_num [pyRound2, roundHalfEven],
      show pyRound2 ((1 : ℚ) - 0) = 1 from by norm_num [pyRound2, roundHalfEven],
      show pyRound2 ((3 : ℚ) - 2) = 1 from by norm_num [pyRound2, roundHalfEven]]
    norm_num [structuredLoop, pyRound2, roundHalfEven]
    simp +decide [merge_consecutive_speaker_segments, mergeLoop, normalize_speaker_labels,
      buildSpeakerMap, List.foldl, mergedGapSeg,
      show sanitize_text (pyStrip "Hi" ++ " " ++ pyStrip "there") = "Hi there" from rfl,
      show ("Speaker " ++ toString 1 : String) = "Speaker 1" from rfl]
  · norm_num [mergedGapSeg]
  · norm_num [mergedGapSeg, pyRound2, roundHalfEven]

/-- Witness for C5: a token whose sanitized text is empty leaves the
aggregation state untouched. -/
theorem claim_C5_witness :
    sanitize_token_text "" = ""
    ∧ aggStep (1/2) ⟨[], none⟩ ⟨"", none, none, none, none, none⟩ = ⟨[], none⟩ :=
  ⟨rfl, claim_C5.1 (1/2) ⟨[], none⟩ ⟨"", none, none, none, none, none⟩ rfl⟩

/-- Claim C9: a missing or blank transcript aborts the scoring entry
point with an error, and an empty token list aborts the transcription
pipeline with an error — in both cases no result object is produced. -/
theorem claim_C9 :
    (∀ (rubric : Rubric) (oracle : String → List Segment → ScoringResults)
        (td : TranscriptData),
        ((td.transcription.getD "") = "" ∨ pyStrip (td.transcription.getD "") = "") →
        score_transcript_main rubric oracle td = Except.error "Transcript is empty or missing")
    ∧ (∀ (mt : ℚ) (ns : Bool) (resp : SonioxResponse),
        (resp.tokens.getD []) = [] →
        transcribe_from_response mt ns resp =
          Except.error "Soniox transcript response did not contain any tokens") := by
  constructor
  · intro rubric oracle td h
    simp only [score_transcript_main]
    rw [if_pos h]
  · intro mt ns resp h
    simp only [transcribe_from_response]
    rw [if_pos h]

/-- Witness for C9: a whitespace-only transcript and a present-but-empty
token array are both rejected with the hard errors. -/
theorem claim_C9_witness :
    ((((⟨some "   ", none⟩ : TranscriptData).transcription.getD "") = "" ∨
        pyStrip ((⟨some "   ", none⟩ : TranscriptData).transcription.getD "") = "")
      ∧ score_transcript_main rubricW (fun _ _ => []) ⟨some "   ", none⟩ =
          Except.error "Transcript is empty or missing")
    ∧ ((((⟨some "t", some []⟩ : SonioxResponse).tokens.getD []) = [])
      ∧ transcribe_from_response 0 true ⟨some "t", some []⟩ =
          Except.error "Soniox transcript response did not contain any tokens") :=
  ⟨⟨Or.inr (by decide), claim_C9.1 rubricW (fun _ _ => []) _ (Or.inr (by decide))⟩,
   ⟨rfl, claim_C9.2 0 true _ rfl⟩⟩

/-- The fatal-gate fold never empties its accumulator, and ends
nonempty whenever some listed id has raw score exactly 0. -/
lemma gate_fold_ne_nil (results : ScoringResults) (ps : List (String × String))
    (acc : List String)
    (h : acc ≠ [] ∨ ∃ p ∈ ps, rawScore results p.1 = 0) :
    ps.foldl
      (fun acc p =>
        let param_score := rawScore results p.1
        if param_score = -1 then acc
        else if param_score = 0 then acc ++ [p.2 ++ " (" ++ p.1 ++ ")"]
        else acc)
      acc ≠ [] := by
  induction ps generalizing acc with
  | nil =>
    rcases h with h | ⟨p, hp, -⟩
    · exact h
    · exact absurd hp (List.not_mem_nil p)
  | cons p rest ih =>
    simp only [List.foldl_cons]
    by_cases h1 : rawScore results p.1 = -1
    · rw [if_pos h1]
      apply ih
      rcases h with h | ⟨q, hq, hq0⟩
      · exact Or.inl h
      · rcases List.mem_cons.1 hq with rfl | hq'
        · rw [hq0] at h1
          exact absurd h1 (by norm_num)
        · exact Or.inr ⟨q, hq', hq0⟩
    · rw [if_neg h1]
      by_cases h2 : rawScore results p.1 = 0
      · rw [if_pos h2]
        apply ih
        exact Or.inl (by simp)
      · rw [if_neg h2]
        apply ih
        rcases h with h | ⟨q, hq, hq0⟩
        · exact Or.inl h
        · rcases List.mem_cons.1 hq with rfl | hq'
          · exact absurd hq0 h2
          · exact Or.inr ⟨q, hq', hq0⟩

/-- If any of the four fatal ids has raw score exactly 0, the fatal
gate reports failure. -/
lemma check_fatal_true (results : ScoringResults) (rubric : Rubric)
    (h : rawScore results "brand_intro" = 0 ∨
         rawScore results "project_knowledge_accuracy" = 0 ∨
         rawScore results "professional" = 0 ∨
         rawScore results "tone_voice_modulation" = 0) :
    (check_fatal_parameters results rubric).1 = true := by
  have hmem : ∃ p ∈ fatal_param_mapping, rawScore results p.1 = 0 := by
    rcases h with h | h | h | h
    · exact ⟨("brand_intro", "No introduction of brand"), by simp [fatal_param_mapping], h⟩
    · exact ⟨("project_knowledge_accuracy", "Wrong Information / False Commitment"),
        by simp [fatal_param_mapping], h⟩
    · exact ⟨("professional", "No Professional Behaviour"), by simp [fatal_param_mapping], h⟩
    · exact ⟨("tone_voice_modulation", "Avoid being Rude and Unprofessional"),
        by simp [fatal_param_mapping], h⟩
  exact decide_eq_true (gate_fold_ne_nil results fatal_param_mapping [] (Or.inr hmem))

/-- A fired gate forces the compiled total score to 0. -/
lemma total_zero_of_gate (results : ScoringResults) (rubric : Rubric) (tl ns : ℕ)
    (h : (check_fatal_parameters results rubric).1 = true) :
    (compile_final_report results rubric tl ns).total_score = 0 := by
  simp [compile_final_report, h]

/-- Counterexample to claim C1 as stated: with `brand_intro` raw score
`-2` the compiled entry has resolved score 0 and is not NA, yet the
total score is 5, not 0 — the gate keys on the raw score, not the
resolved score. -/
theorem claim_C1_counterexample :
    (∃ d ∈ (compile_final_report resultsNegFatal rubricW 0 0).criteria_scores,
        d.is_fatal = true ∧ d.score = 0 ∧ d.is_na = false)
    ∧ (compile_final_report resultsNegFatal rubricW 0 0).total_score = 5 := by
  decide

/-- Claim C1 (amended): if any fatal criterion's RAW oracle score is
exactly 0, the report's total score is 0, while `criteria_scores` still
carries every criterion's individually resolved score, unaffected by
the gate. -/
theorem claim_C1_amended (results : ScoringResults) (rubric : Rubric) (tl ns : ℕ)
    (h : rawScore results "brand_intro" = 0 ∨
         rawScore results "project_knowledge_accuracy" = 0 ∨
         rawScore results "professional" = 0 ∨
         rawScore results "tone_voice_modulation" = 0) :
    (compile_final_report results rubric tl ns).total_score = 0
    ∧ (compile_final_report results rubric tl ns).criteria_scores =
        detailed_scores results rubric :=
  ⟨total_zero_of_gate results rubric tl ns (check_fatal_true results rubric h), rfl⟩

/-- Witness for the amended C1 at `brand_intro` raw score 0. -/
theorem claim_C1_witness :
    (rawScore resultsZeroFatal "brand_intro" = 0 ∨
      rawScore resultsZeroFatal "project_knowledge_accuracy" = 0 ∨
      rawScore resultsZeroFatal "professional" = 0 ∨
      rawScore resultsZeroFatal "tone_voice_modulation" = 0)
    ∧ (compile_final_report resultsZeroFatal rubricW 0 0).total_score = 0 :=
  ⟨Or.inl (by decide),
   (claim_C1_amended resultsZeroFatal rubricW 0 0 (Or.inl (by decide))).1⟩

/-- Mapping with a fatal-contributes-zero conditional equals summing
over the non-fatal entries only. -/
lemma sum_map_ite_eq_sum_filter (l : List ParamDetail) :
    (l.map (fun d => if d.is_fatal then (0 : ℤ) else d.score)).sum
      = ((l.filter (fun d => !d.is_fatal)).map (fun d => d.score)).sum := by
  induction l with
  | nil => rfl
  | cons d rest ih =>
    by_cases h : d.is_fatal
    · simp [h, ih]
    · simp [h, ih]

/-- A category's awarded points are the sum of resolved scores of its
non-fatal entries. -/
lemma category_awarded_filter (results : ScoringResults) (cat : Category) :
    category_awarded results cat
      = (((cat.sub_parameters.map (compileParam results)).filter (fun d => !d.is_fatal)).map
          (fun d => d.score)).sum := by
  unfold category_awarded
  have hmm : (cat.sub_parameters.map
        (fun sp =>
          let d := compileParam results sp
          if d.is_fatal then (0 : ℤ) else d.score))
      = (cat.sub_parameters.map (compileParam results)).map
          (fun d => if d.is_fatal then (0 : ℤ) else d.score) := by
    rw [List.map_map]
    exact rfl
  rw [hmm, sum_map_ite_eq_sum_filter]

/-- Filtering and summing distributes over flatten. -/
lemma sum_filter_flatten (L : List (List ParamDetail)) :
    ((L.flatten.filter (fun d => !d.is_fatal)).map (fun d => d.score)).sum
      = (L.map (fun l => ((l.filter (fun d => !d.is_fatal)).map (fun d => d.score)).sum)).sum := by
  induction L with
  | nil => rfl
  | cons l rest ih =>
    simp only [List.flatten_cons, List.filter_append, List.map_append, List.sum_append,
      List.map_cons, List.sum_cons, ih]

/-- Claim C2: fatal criteria never contribute to category awarded
points, and when the fatal gate does not fire, the total score is
exactly the sum of the resolved scores of all non-fatal entries of
`criteria_scores`. -/
theorem claim_C2 (results : ScoringResults) (rubric : Rubric) (tl ns : ℕ) :
    (∀ cat ∈ rubric.categories,
        category_awarded results cat
          = (((cat.sub_parameters.map (compileParam results)).filter (fun d => !d.is_fatal)).map
              (fun d => d.score)).sum)
    ∧ ((check_fatal_parameters results rubric).1 = false →
        (compile_final_report results rubric tl ns).total_score
          = ((((compile_final_report results rubric tl ns).criteria_scores.filter
              (fun d => !d.is_fatal)).map (fun d => d.score)).sum)) := by
  constructor
  · intro cat _
    exact category_awarded_filter results cat
  · intro hgate
    have h1 : (compile_final_report results rubric tl ns).total_score
        = (rubric.categories.map (category_awarded results)).sum := by
      simp [compile_final_report, hgate]
    have h2 : (compile_final_report results rubric tl ns).criteria_scores
        = (rubric.categories.map
            (fun c => c.sub_parameters.map (compileParam results))).flatten := rfl
    rw [h1, h2, sum_filter_flatten, List.map_map]
    refine congrArg List.sum (List.map_congr_left ?_)
    intro cat _
    exact category_awarded_filter results cat

/-- Witness for C2 on a clean payload: the gate is down and the total
equals the non-fatal sum. -/
theorem claim_C2_witness :
    ((check_fatal_parameters resultsClean rubricW).1 = false)
    ∧ (compile_final_report resultsClean rubricW 0 0).total_score
        = ((((compile_final_report resultsClean rubricW 0 0).criteria_scores.filter
            (fun d => !d.is_fatal)).map (fun d => d.score)).sum) :=
  ⟨by decide, (claim_C2 resultsClean rubricW 0 0).2 (by decide)⟩

/-- Claim C3: a compiled entry is NA exactly when the raw score is -1;
an NA entry resolves to full credit; any other entry resolves to the
raw score clamped into `[0, max_points]`. -/
theorem claim_C3 (results : ScoringResults) (sp : SubParam) (h : 0 ≤ sp.max_points) :
    ((compileParam results sp).is_na = true ↔ rawScore results sp.id = -1)
    ∧ ((compileParam results sp).is_na = true →
        (compileParam results sp).score = sp.max_points)
    ∧ ((compileParam results sp).is_na = false →
        (compileParam results sp).score = max 0 (min (rawScore results sp.id) sp.max_points)) := by
  have hr : (getResult results sp.id).score.getD 0 = rawScore results sp.id := rfl
  simp only [compileParam, hr]
  split_ifs with h1 h2 h3 <;> simp_all <;> omega

/-- Witness for C3 on the non-fatal fixture criterion. -/
theorem claim_C3_witness :
    (0 ≤ spOther.max_points)
    ∧ (((compileParam resultsClean spOther).is_na = true ↔
          rawScore resultsClean spOther.id = -1)
      ∧ ((compileParam resultsClean spOther).is_na = true →
          (compileParam resultsClean spOther).score = spOther.max_points)
      ∧ ((compileParam resultsClean spOther).is_na = false →
          (compileParam resultsClean spOther).score =
            max 0 (min (rawScore resultsClean spOther.id) spOther.max_points))) :=
  ⟨by decide, claim_C3 resultsClean spOther (by decide)⟩

/-- Claim C8: the report keeps the rubric's declared total point budget
whatever the gate did; the percentage is 0 when that budget is 0 and
otherwise `round(total_score / total_points * 100, 2)`. -/
theorem claim_C8 (results : ScoringResults) (rubric : Rubric) (tl ns : ℕ) :
    (compile_final_report results rubric tl ns).total_points = rubric.total_points
    ∧ (rubric.total_points = 0 → (compile_final_report results rubric tl ns).percentage = 0)
    ∧ (0 < rubric.total_points →
        (compile_final_report results rubric tl ns).percentage
          = pyRound2 (((compile_final_report results rubric tl ns).total_score : ℚ)
              / (rubric.total_points : ℚ) * 100)) := by
  refine ⟨rfl, ?_, ?_⟩
  · intro h
    simp [compile_final_report, h]
  · intro h
    simp [compile_final_report, h]

/-- Witness for C8 on the clean fixture (budget 20, total 5). -/
theorem claim_C8_witness :
    (0 < rubricW.total_points)
    ∧ (compile_final_report resultsClean rubricW 0 0).percentage
        = pyRound2 (((compile_final_report resultsClean rubricW 0 0).total_score : ℚ)
            / (rubricW.total_points : ℚ) * 100) :=
  ⟨by decide, (claim_C8 resultsClean rubricW 0 0).2.2 (by decide)⟩

/-- Claim C10: a fatal id entirely absent from the payload reads as raw
score 0 (not NA), trips the gate, forces the total score to 0, and its
rubric entry (if any) resolves to 0 with `is_na = false`. -/
theorem claim_C10 (results : ScoringResults) (rubric : Rubric) (tl ns : ℕ) (pid : String)
    (hmem : pid ∈ fatal_param_ids) (habs : List.lookup pid results = none) :
    rawScore results pid = 0
    ∧ (check_fatal_parameters results rubric).1 = true
    ∧ (compile_final_report results rubric tl ns).total_score = 0
    ∧ (∀ sp : SubParam, sp.id = pid → 0 ≤ sp.max_points →
        (compileParam results sp).score = 0 ∧ (compileParam results sp).is_na = false) := by
  have hraw : rawScore results pid = 0 := by
    simp [rawScore, getResult, habs, JudgeEntry.empty]
  have hdisj : rawScore results "brand_intro" = 0 ∨
      rawScore results "project_knowledge_accuracy" = 0 ∨
      rawScore results "professional" = 0 ∨
      rawScore results "tone_voice_modulation" = 0 := by
    simp only [fatal_param_ids, List.mem_cons, List.not_mem_nil, or_false] at hmem
    rcases hmem with rfl | rfl | rfl | rfl
    · exact Or.inl hraw
    · exact Or.inr (Or.inl hraw)
    · exact Or.inr (Or.inr (Or.inl hraw))
    · exact Or.inr (Or.inr (Or.inr hraw))
  refine ⟨hraw, check_fatal_true results rubric hdisj,
    total_zero_of_gate results rubric tl ns (check_fatal_true results rubric hdisj), ?_⟩
  intro sp hid hmax
  have hraw' : (getResult results sp.id).score.getD 0 = 0 := by
    rw [hid]
    exact hraw
  simp only [compileParam, hraw']
  split_ifs <;> simp_all <;> omega

/-- Witness for C10: with every fatal id absent, the gate fires and the
total is 0. -/
theorem claim_C10_witness :
    ("brand_intro" ∈ fatal_param_ids)
    ∧ (List.lookup "brand_intro" resultsMissingFatal = none)
    ∧ (rawScore resultsMissingFatal "brand_intro" = 0
        ∧ (check_fatal_parameters resultsMissingFatal rubricW).1 = true
        ∧ (compile_final_report resultsMissingFatal rubricW 0 0).total_score = 0) := by
  have h := claim_C10 resultsMissingFatal rubricW 0 0 "brand_intro" (by decide) (by decide)
  exact ⟨by decide, by decide, h.1, h.2.1, h.2.2.1⟩

end ReviewSys
